import Mathlib

/-!
Shallow embedding of the browser-side interaction layer of SecureShare
(src/static/js/client.js, the full-featured variant: `checkStatus`,
`initiateDownload`, `cancelDownload`, `pollRequest`, `closeModal`,
`loadViewPreference`, `toggleView`).

The JavaScript is single-threaded and event-driven; every state change
happens inside a handler that runs to completion.  We therefore model the
module-level mutable state as a structure `ClientState` and each handler
(or each completion of a handler's fetch) as a pure function
`ClientState → input → ClientState`.  Timers created by `setInterval` are
given fresh numeric ids (`nextTimer`); the multiset of intervals that have
been created and not yet cleared is the list `activeTimers`, and the
module-level variable `pollInterval` is an `Option Nat`.  Navigations
(`window.location.href = ...`), reloads (`window.location.reload()`),
alerts and pause-overlay DOM toggles are recorded in observation lists.
-/

namespace SecureShare

/-- Which of the three status panes of the approval modal is visible
(`statusWaiting` / `statusApproved` / `statusRejected`). -/
inductive ModalStatus
  | waiting
  | approvedShown
  | rejectedShown
deriving DecidableEq, Repr

/-- JSON body of a `GET /api/client/status` response. -/
structure StatusData where
  running : Bool
  paused : Bool
  config_id : String
  force_logout : Bool
deriving DecidableEq, Repr

/-- JSON body of a `GET /api/client/check_request/{reqId}` response. -/
structure CheckData where
  status : String
  link : String
deriving DecidableEq, Repr

/-- Outcome of a fetch as seen by the handler chain: either the parsed JSON
payload, or a network failure (rejected promise — the handlers never run). -/
inductive FetchResult (α : Type)
  | ok (val : α)
  | fail
deriving DecidableEq, Repr

/-- Outcome of the `POST /api/client/request_download` fetch.
`httpError` is a non-2xx response: `if (!response.ok) throw ...` sends the
chain to the `.catch` handler (a network failure takes the same path). -/
inductive InitResponse
  | httpError
  | ok (status : String) (direct_link : String) (req_id : String)
deriving DecidableEq, Repr

/-- The module-level mutable state of client.js plus recorded observations. -/
structure ClientState where
  /-- `let isGridView = true` -/
  isGridView : Bool
  /-- `let pausedState = false` -/
  pausedState : Bool
  /-- `let currentConfigId = null` -/
  currentConfigId : Option String
  /-- `let currentReqId = null` -/
  currentReqId : Option String
  /-- `let pollInterval = null` -/
  pollInterval : Option Nat
  /-- ids of intervals created by `setInterval` and not yet cleared -/
  activeTimers : List Nat
  /-- fresh-id source for `setInterval` -/
  nextTimer : Nat
  /-- URLs assigned to `window.location.href`, in order -/
  navigations : List String
  /-- number of `window.location.reload()` calls -/
  reloads : Nat
  /-- messages passed to `alert` -/
  alerts : List String
  /-- whether the approval modal is visible -/
  modalOpen : Bool
  /-- which status pane of the modal is visible -/
  modalStatus : ModalStatus
  /-- pause-overlay DOM churn: `true` for each enter, `false` for each exit -/
  pauseToggles : List Bool
  /-- navigations scheduled by `setTimeout(..., 1500)` after approval -/
  scheduledNavs : List String
  /-- text of the `reqIdDisplay` element -/
  reqIdDisplay : String
  /-- `localStorage` slot `viewMode` -/
  viewStorage : Option String
deriving DecidableEq, Repr

/-- State at page load with the given persisted `localStorage` content
(only `viewMode` survives a reload; every `let` is re-initialised). -/
def freshPage (storage : Option String) : ClientState :=
  { isGridView := true
    pausedState := false
    currentConfigId := none
    currentReqId := none
    pollInterval := none
    activeTimers := []
    nextTimer := 0
    navigations := []
    reloads := 0
    alerts := []
    modalOpen := false
    modalStatus := ModalStatus.waiting
    pauseToggles := []
    scheduledNavs := []
    reqIdDisplay := ""
    viewStorage := storage }

/-- Page load with empty `localStorage`. -/
def initState : ClientState := freshPage none

/-- `clearInterval(h)` on the stored handle: a no-op when the handle is
`null`, otherwise removes that id from the active set (a second clear of
the same id is a no-op, as in the browser). -/
def clearTimer (timers : List Nat) : Option Nat → List Nat
  | none => timers
  | some t => timers.erase t

/-- `toggleView(forceList)`: flips (or forces) the view mode and saves it
synchronously to `localStorage.setItem('viewMode', ...)`.  The DOM class
shuffling is presentation-only and not modelled. -/
def toggleView (forceList : Bool) (s : ClientState) : ClientState :=
  let g := if forceList then false else !s.isGridView
  { s with isGridView := g
           viewStorage := some (if g then "grid" else "list") }

/-- `loadViewPreference()`: reads `localStorage.getItem('viewMode')` and
calls `toggleView(true)` exactly when the saved value is `'list'`. -/
def loadViewPreference (s : ClientState) : ClientState :=
  if s.viewStorage = some "list" then toggleView true s else s

/-- The pause-handling tail of `checkStatus` (Case 4): edge-triggered
enter/exit of the blur overlay, guarded by the `pausedState` flag. -/
def pauseStep (s : ClientState) (d : StatusData) : ClientState :=
  if d.paused && !s.pausedState then
    { s with pausedState := true
             pauseToggles := s.pauseToggles ++ [true] }
  else if !d.paused && s.pausedState then
    { s with pausedState := false
             pauseToggles := s.pauseToggles ++ [false] }
  else s

/-- The response handler of `checkStatus` applied to a parsed status
payload `d`. -/
def checkStatus (s : ClientState) (d : StatusData) : ClientState :=
  if d.force_logout then
    { s with navigations := s.navigations ++ ["/login?reason=logout"] }
  else if !d.running then
    { s with navigations := s.navigations ++ ["/logout"] }
  else
    match s.currentConfigId with
    | none => pauseStep { s with currentConfigId := some d.config_id } d
    | some c =>
      if c = d.config_id then pauseStep s d
      else { s with navigations := s.navigations ++ ["/files"] }

/-- One tick of the global `setInterval(checkStatus, 1000)` loop: a failed
fetch means none of the `.then` handlers run (there is no state change and
nothing stops the interval). -/
def checkStatusTick (s : ClientState) (r : FetchResult StatusData) : ClientState :=
  match r with
  | FetchResult.fail => s
  | FetchResult.ok d => checkStatus s d

/-- `closeModal()`: hides the modal, runs
`if (pollInterval) clearInterval(pollInterval)` (the variable itself is
not reset to `null`) and sets `currentReqId = null`. -/
def closeModal (s : ClientState) : ClientState :=
  { s with modalOpen := false
           activeTimers := clearTimer s.activeTimers s.pollInterval
           currentReqId := none }

/-- `pollRequest(reqId)`: `pollInterval = setInterval(..., 1000)` — a fresh
interval id is stored in `pollInterval` and becomes active.  Note the code
does not clear any previously stored interval first. -/
def pollRequest (s : ClientState) (_reqId : String) : ClientState :=
  { s with pollInterval := some s.nextTimer
           activeTimers := s.activeTimers ++ [s.nextTimer]
           nextTimer := s.nextTimer + 1 }

/-- Body of one tick of the `pollRequest` interval, applied to the fetch
outcome.  On `approved`: `clearInterval(pollInterval)`, `showApproved()`,
and a navigation to `data.link` is scheduled by `setTimeout(..., 1500)`.
On `rejected`: `clearInterval(pollInterval)`, `showRejected()`.  Any other
status does nothing; a failed fetch has no handler and does nothing. -/
def pollTickBody (s : ClientState) (r : FetchResult CheckData) : ClientState :=
  match r with
  | FetchResult.fail => s
  | FetchResult.ok d =>
    if d.status = "approved" then
      { s with activeTimers := clearTimer s.activeTimers s.pollInterval
               modalStatus := ModalStatus.approvedShown
               scheduledNavs := s.scheduledNavs ++ [d.link] }
    else if d.status = "rejected" then
      { s with activeTimers := clearTimer s.activeTimers s.pollInterval
               modalStatus := ModalStatus.rejectedShown }
    else s

/-- A tick of interval `t`: fires only while `t` is still active (a cleared
interval produces no further callbacks). -/
def pollTick (s : ClientState) (t : Nat) (r : FetchResult CheckData) : ClientState :=
  if t ∈ s.activeTimers then pollTickBody s r else s

/-- Run the poll loop of interval `t` over a list of tick outcomes. -/
def runPollTicks (s : ClientState) (t : Nat) (rs : List (FetchResult CheckData)) :
    ClientState :=
  rs.foldl (fun st r => pollTick st t r) s

/-- `initiateDownload(filename, path)`: opens the modal, resets the panes to
`Waiting`, sets `reqIdDisplay` to a placeholder and `currentReqId = null`,
then handles the `request_download` response: `approved` closes the modal
and navigates to `direct_link`; `pending` records `req_id`, displays its
first 8 characters and starts `pollRequest`; any other 2xx status does
nothing further; a non-2xx response throws into `.catch`, which logs,
closes the modal, alerts and reloads the page. -/
def initiateDownload (s : ClientState) (r : InitResponse) : ClientState :=
  let s1 := { s with modalOpen := true
                     modalStatus := ModalStatus.waiting
                     reqIdDisplay := "ID: ..."
                     currentReqId := none }
  match r with
  | InitResponse.httpError =>
    let s2 := closeModal s1
    { s2 with
        alerts := s2.alerts ++
          ["Could not request file. The shared folder might have changed."]
        reloads := s2.reloads + 1 }
  | InitResponse.ok st link rid =>
    if st = "approved" then
      let s2 := closeModal s1
      { s2 with navigations := s2.navigations ++ [link] }
    else if st = "pending" then
      pollRequest { s1 with currentReqId := some rid
                            reqIdDisplay := "ID: " ++ rid.take 8 } rid
    else s1

/-- `cancelDownload()`: when `currentReqId` is set it fires a best-effort
`cancel_request` POST whose outcome is ignored (`.catch(console.error)`),
then unconditionally calls `closeModal()`.  The fetch has no effect on
client state either way. -/
def cancelDownload (s : ClientState) : ClientState :=
  closeModal s

/-- The externally triggerable events of the client page. -/
inductive Event
  | initiate (r : InitResponse)
  | pollStart (reqId : String)
  | requestTick (t : Nat) (r : FetchResult CheckData)
  | close
  | cancel
  | statusTick (r : FetchResult StatusData)
deriving DecidableEq, Repr

/-- Dispatch one event to the corresponding handler. -/
def step (s : ClientState) (e : Event) : ClientState :=
  match e with
  | Event.initiate r => initiateDownload s r
  | Event.pollStart rid => pollRequest s rid
  | Event.requestTick t r => pollTick s t r
  | Event.close => closeModal s
  | Event.cancel => cancelDownload s
  | Event.statusTick r => checkStatusTick s r

/-- Run a sequence of events. -/
def run (s : ClientState) (es : List Event) : ClientState :=
  es.foldl step s

/-- Whether a poll-tick outcome is an `approved` response. -/
def isApproved : FetchResult CheckData → Bool
  | FetchResult.ok d => d.status = "approved"
  | FetchResult.fail => false

/-- Whether a poll-tick outcome is a terminal (`approved` or `rejected`)
response. -/
def isTerminal : FetchResult CheckData → Bool
  | FetchResult.ok d => d.status = "approved" || d.status = "rejected"
  | FetchResult.fail => false

/-- Side condition under which an event does not start a polling interval
on top of a live one: a `pending` initiation or a direct `pollRequest` call
must find no interval active.  All other events never create intervals. -/
def safeCond (s : ClientState) : Event → Bool
  | Event.initiate (InitResponse.ok st _ _) =>
      if st = "pending" then s.activeTimers.isEmpty else true
  | Event.pollStart _ => s.activeTimers.isEmpty
  | _ => true

/-- Every polling start in the event sequence happens while no interval is
active. -/
def startsSafe : ClientState → List Event → Bool
  | _, [] => true
  | s, e :: es => safeCond s e && startsSafe (step s e) es

/-- A client state that has just started polling: one pending initiation
from a fresh page. -/
def demoStart : ClientState :=
  initiateDownload initState (InitResponse.ok "pending" "x" "req00001")

/-- A short poll-outcome trace: one still-pending response, then approval. -/
def demoTicks : List (FetchResult CheckData) :=
  [FetchResult.ok ⟨"pending", ""⟩, FetchResult.ok ⟨"approved", "/dl/x"⟩]

/-- An event sequence in which each polling start finds no live interval. -/
def demoEvents : List Event :=
  [Event.initiate (InitResponse.ok "pending" "a" "req00001"),
   Event.requestTick 0 (FetchResult.ok ⟨"approved", "/dl/a"⟩),
   Event.initiate (InitResponse.ok "pending" "b" "req00002"),
   Event.cancel]

theorem pauseStep_currentConfigId (s : ClientState) (d : StatusData) :
    (pauseStep s d).currentConfigId = s.currentConfigId := by
  unfold pauseStep
  split
  · rfl
  · split
    · rfl
    · rfl

theorem pauseStep_navigations (s : ClientState) (d : StatusData) :
    (pauseStep s d).navigations = s.navigations := by
  unfold pauseStep
  split
  · rfl
  · split
    · rfl
    · rfl

theorem pauseStep_activeTimers (s : ClientState) (d : StatusData) :
    (pauseStep s d).activeTimers = s.activeTimers := by
  unfold pauseStep
  split
  · rfl
  · split
    · rfl
    · rfl

theorem checkStatus_activeTimers (s : ClientState) (d : StatusData) :
    (checkStatus s d).activeTimers = s.activeTimers := by
  unfold checkStatus
  split
  · rfl
  · split
    · rfl
    · split
      · exact pauseStep_activeTimers _ _
      · split
        · exact pauseStep_activeTimers _ _
        · rfl

/-- C3: on a status-poll response with `force_logout` true, `checkStatus`
performs exactly one navigation, to `/login?reason=logout`, and mutates no
other local state on that tick, regardless of `running`, `paused` and
`config_id`. -/
theorem checkStatus_forceLogout (s : ClientState) (d : StatusData)
    (h : d.force_logout = true) :
    checkStatus s d =
      { s with navigations := s.navigations ++ ["/login?reason=logout"] } := by
  simp [checkStatus, h]

/-- Witness for `checkStatus_forceLogout` at a concrete state and payload
in which `running` is false and `paused` is true. -/
theorem checkStatus_forceLogout_witness :
    (StatusData.mk false true "cfg1" true).force_logout = true ∧
    checkStatus initState (StatusData.mk false true "cfg1" true) =
      { initState with
          navigations := initState.navigations ++ ["/login?reason=logout"] } :=
  ⟨rfl, checkStatus_forceLogout initState (StatusData.mk false true "cfg1" true) rfl⟩

/-- C6: on a status-poll response with `force_logout` false and `running`
false, `checkStatus` navigates to the logout endpoint `/logout` (and does
nothing else on that tick). -/
theorem checkStatus_notRunning (s : ClientState) (d : StatusData)
    (h1 : d.force_logout = false) (h2 : d.running = false) :
    checkStatus s d = { s with navigations := s.navigations ++ ["/logout"] } := by
  simp [checkStatus, h1, h2]

/-- Witness for `checkStatus_notRunning` at a concrete state and payload. -/
theorem checkStatus_notRunning_witness :
    (StatusData.mk false false "cfg1" false).force_logout = false ∧
    (StatusData.mk false false "cfg1" false).running = false ∧
    checkStatus initState (StatusData.mk false false "cfg1" false) =
      { initState with navigations := initState.navigations ++ ["/logout"] } :=
  ⟨rfl, rfl,
    checkStatus_notRunning initState (StatusData.mk false false "cfg1" false) rfl rfl⟩

/-- C5: a non-2xx `request_download` response takes the `.catch` path: the
controller signals the failure (alert), allocates no polling interval
(`nextTimer` unchanged, the active set only shrinks), discards the partial
request state (`currentReqId = null`, modal closed) and triggers exactly
one full page reload; no navigation occurs. -/
theorem initiateDownload_httpError (s : ClientState) :
    (initiateDownload s InitResponse.httpError).nextTimer = s.nextTimer ∧
    List.Sublist (initiateDownload s InitResponse.httpError).activeTimers
      s.activeTimers ∧
    (initiateDownload s InitResponse.httpError).currentReqId = none ∧
    (initiateDownload s InitResponse.httpError).modalOpen = false ∧
    (initiateDownload s InitResponse.httpError).reloads = s.reloads + 1 ∧
    (initiateDownload s InitResponse.httpError).alerts =
      s.alerts ++
        ["Could not request file. The shared folder might have changed."] ∧
    (initiateDownload s InitResponse.httpError).navigations = s.navigations := by
  refine ⟨rfl, ?_, rfl, rfl, rfl, rfl, rfl⟩
  show List.Sublist (clearTimer s.activeTimers s.pollInterval) s.activeTimers
  cases s.pollInterval with
  | none => exact List.Sublist.refl _
  | some t => exact List.erase_sublist t s.activeTimers

/-- C10: a 2xx `request_download` response whose `status` is neither
`approved` nor `pending` leaves the controller silently waiting: the modal
shows the waiting pane, no interval is created, no navigation or reload
happens, and `currentReqId` stays null. -/
theorem initiateDownload_unknownStatus (s : ClientState) (st link rid : String)
    (h1 : st ≠ "approved") (h2 : st ≠ "pending") :
    initiateDownload s (InitResponse.ok st link rid) =
      { s with modalOpen := true
               modalStatus := ModalStatus.waiting
               reqIdDisplay := "ID: ..."
               currentReqId := none } := by
  simp [initiateDownload, h1, h2]

/-- Witness for `initiateDownload_unknownStatus` at the concrete status
string `"denied"`. -/
theorem initiateDownload_unknownStatus_witness :
    ("denied" : String) ≠ "approved" ∧ ("denied" : String) ≠ "pending" ∧
    initiateDownload initState (InitResponse.ok "denied" "/dl/x" "req00001") =
      { initState with
          modalOpen := true
          modalStatus := ModalStatus.waiting
          reqIdDisplay := "ID: ..."
          currentReqId := none } :=
  ⟨by decide, by decide,
    initiateDownload_unknownStatus initState "denied" "/dl/x" "req00001"
      (by decide) (by decide)⟩

/-- C8: a failed fetch during a status-poll tick or a request-poll tick
changes no local state for that tick (the `.then` handlers never run, and
nothing clears the interval), so the subsequent ticks behave exactly as
they would from the original state. -/
theorem failedFetch_tick_noop (s : ClientState) (t : Nat) :
    checkStatusTick s FetchResult.fail = s ∧
    pollTick s t FetchResult.fail = s ∧
    (pollTick s t FetchResult.fail).activeTimers = s.activeTimers := by
  have h : pollTick s t FetchResult.fail = s := by
    unfold pollTick pollTickBody
    split
    · rfl
    · rfl
  exact ⟨rfl, h, by rw [h]⟩

/-- C4: with the session valid (`force_logout` false, `running` true),
`checkStatus` records `config_id` as baseline on the first observation
(without navigating); a later observation equal to the baseline leaves the
baseline and the navigation log unchanged; a later observation different
from the baseline performs exactly one navigation, to `/files`, and
mutates nothing else — in particular the baseline is never rewritten. -/
theorem checkStatus_configBaseline (s : ClientState) (d : StatusData)
    (hfl : d.force_logout = false) (hr : d.running = true) :
    (s.currentConfigId = none →
      (checkStatus s d).currentConfigId = some d.config_id ∧
      (checkStatus s d).navigations = s.navigations) ∧
    (s.currentConfigId = some d.config_id →
      (checkStatus s d).currentConfigId = some d.config_id ∧
      (checkStatus s d).navigations = s.navigations) ∧
    (∀ c, s.currentConfigId = some c → c ≠ d.config_id →
      checkStatus s d = { s with navigations := s.navigations ++ ["/files"] }) := by
  refine ⟨?_, ?_, ?_⟩
  · intro hnone
    simp [checkStatus, hfl, hr, hnone, pauseStep_currentConfigId, pauseStep_navigations]
  · intro hsome
    simp [checkStatus, hfl, hr, hsome, pauseStep_currentConfigId, pauseStep_navigations]
  · intro c hc hne
    simp [checkStatus, hfl, hr, hc, hne]

/-- Witness for `checkStatus_configBaseline` at a concrete state whose
baseline matches the observed `config_id`. -/
theorem checkStatus_configBaseline_witness :
    (StatusData.mk true false "cfg1" false).force_logout = false ∧
    (StatusData.mk true false "cfg1" false).running = true ∧
    (({ initState with currentConfigId := some "cfg1" }.currentConfigId = none →
        (checkStatus { initState with currentConfigId := some "cfg1" }
          (StatusData.mk true false "cfg1" false)).currentConfigId = some "cfg1" ∧
        (checkStatus { initState with currentConfigId := some "cfg1" }
          (StatusData.mk true false "cfg1" false)).navigations =
          { initState with currentConfigId := some "cfg1" }.navigations) ∧
      ({ initState with currentConfigId := some "cfg1" }.currentConfigId = some "cfg1" →
        (checkStatus { initState with currentConfigId := some "cfg1" }
          (StatusData.mk true false "cfg1" false)).currentConfigId = some "cfg1" ∧
        (checkStatus { initState with currentConfigId := some "cfg1" }
          (StatusData.mk true false "cfg1" false)).navigations =
          { initState with currentConfigId := some "cfg1" }.navigations) ∧
      (∀ c, { initState with currentConfigId := some "cfg1" }.currentConfigId = some c →
        c ≠ "cfg1" →
        checkStatus { initState with currentConfigId := some "cfg1" }
          (StatusData.mk true false "cfg1" false) =
          { { initState with currentConfigId := some "cfg1" } with
              navigations :=
                { initState with currentConfigId := some "cfg1" }.navigations ++
                  ["/files"] })) :=
  ⟨rfl, rfl,
    checkStatus_configBaseline { initState with currentConfigId := some "cfg1" }
      (StatusData.mk true false "cfg1" false) rfl rfl⟩

theorem checkStatus_pauseSync (s : ClientState) (d : StatusData)
    (hfl : d.force_logout = false) (hr : d.running = true)
    (hcfg : s.currentConfigId = some d.config_id) :
    checkStatus s d = pauseStep s d := by
  simp [checkStatus, hfl, hr, hcfg]

/-- C7: pause handling is edge-triggered and idempotent.  With the session
valid and the baseline matching, an observation whose `paused` equals the
local flag changes neither the flag nor the overlay DOM; an observation
that differs flips the flag to the observed value and toggles the overlay
exactly once; and processing the same payload a second time is a complete
no-op. -/
theorem checkStatus_pauseEdge (s : ClientState) (d : StatusData)
    (hfl : d.force_logout = false) (hr : d.running = true)
    (hcfg : s.currentConfigId = some d.config_id) :
    (d.paused = s.pausedState →
      (checkStatus s d).pausedState = s.pausedState ∧
      (checkStatus s d).pauseToggles = s.pauseToggles) ∧
    (d.paused ≠ s.pausedState →
      (checkStatus s d).pausedState = d.paused ∧
      (checkStatus s d).pauseToggles = s.pauseToggles ++ [d.paused]) ∧
    checkStatus (checkStatus s d) d = checkStatus s d := by
  have hps : checkStatus s d = pauseStep s d := checkStatus_pauseSync s d hfl hr hcfg
  have hcfg2 : (pauseStep s d).currentConfigId = some d.config_id := by
    rw [pauseStep_currentConfigId]; exact hcfg
  have hps2 : checkStatus (pauseStep s d) d = pauseStep (pauseStep s d) d :=
    checkStatus_pauseSync (pauseStep s d) d hfl hr hcfg2
  refine ⟨?_, ?_, ?_⟩
  · intro heq
    rw [hps]
    cases hq : s.pausedState <;> rw [hq] at heq <;>
      simp [pauseStep, heq, hq]
  · intro hne
    rw [hps]
    cases hq : s.pausedState <;> rw [hq] at hne <;>
      cases hp : d.paused <;> simp [hp] at hne <;>
        simp [pauseStep, hp, hq]
  · rw [hps, hps2]
    cases hp : d.paused <;> cases hq : s.pausedState <;>
      simp [pauseStep, hp, hq]

/-- Witness for `checkStatus_pauseEdge` at a concrete state and payload
with a rising pause edge. -/
theorem checkStatus_pauseEdge_witness :
    (StatusData.mk true true "cfg1" false).force_logout = false ∧
    (StatusData.mk true true "cfg1" false).running = true ∧
    { initState with currentConfigId := some "cfg1" }.currentConfigId =
      some "cfg1" ∧
    (((StatusData.mk true true "cfg1" false).paused =
        { initState with currentConfigId := some "cfg1" }.pausedState →
      (checkStatus { initState with currentConfigId := some "cfg1" }
        (StatusData.mk true true "cfg1" false)).pausedState =
        { initState with currentConfigId := some "cfg1" }.pausedState ∧
      (checkStatus { initState with currentConfigId := some "cfg1" }
        (StatusData.mk true true "cfg1" false)).pauseToggles =
        { initState with currentConfigId := some "cfg1" }.pauseToggles) ∧
    ((StatusData.mk true true "cfg1" false).paused ≠
        { initState with currentConfigId := some "cfg1" }.pausedState →
      (checkStatus { initState with currentConfigId := some "cfg1" }
        (StatusData.mk true true "cfg1" false)).pausedState =
        (StatusData.mk true true "cfg1" false).paused ∧
      (checkStatus { initState with currentConfigId := some "cfg1" }
        (StatusData.mk true true "cfg1" false)).pauseToggles =
        { initState with currentConfigId := some "cfg1" }.pauseToggles ++
          [(StatusData.mk true true "cfg1" false).paused]) ∧
    checkStatus
      (checkStatus { initState with currentConfigId := some "cfg1" }
        (StatusData.mk true true "cfg1" false))
      (StatusData.mk true true "cfg1" false) =
      checkStatus { initState with currentConfigId := some "cfg1" }
        (StatusData.mk true true "cfg1" false)) :=
  ⟨rfl, rfl, rfl,
    checkStatus_pauseEdge { initState with currentConfigId := some "cfg1" }
      (StatusData.mk true true "cfg1" false) rfl rfl rfl⟩

theorem pollTickBody_pollInterval (s : ClientState) (r : FetchResult CheckData) :
    (pollTickBody s r).pollInterval = s.pollInterval := by
  unfold pollTickBody
  split
  · rfl
  · split
    · rfl
    · split
      · rfl
      · rfl

theorem pollTick_pollInterval (s : ClientState) (t : Nat) (r : FetchResult CheckData) :
    (pollTick s t r).pollInterval = s.pollInterval := by
  unfold pollTick
  split
  · exact pollTickBody_pollInterval s r
  · rfl

theorem pollTick_not_mem (s : ClientState) (t : Nat) (r : FetchResult CheckData)
    (h : t ∉ s.activeTimers) : pollTick s t r = s := by
  simp [pollTick, h]

theorem pollTick_nonterminal (s : ClientState) (t : Nat) (r : FetchResult CheckData)
    (h : isTerminal r = false) : pollTick s t r = s := by
  cases r with
  | fail =>
      unfold pollTick pollTickBody
      split
      · rfl
      · rfl
  | ok d =>
      simp [isTerminal] at h
      unfold pollTick pollTickBody
      simp [h.1, h.2]

theorem runPollTicks_nil (s : ClientState) (t : Nat) :
    runPollTicks s t [] = s := rfl

theorem runPollTicks_cons (s : ClientState) (t : Nat) (r : FetchResult CheckData)
    (rs : List (FetchResult CheckData)) :
    runPollTicks s t (r :: rs) = runPollTicks (pollTick s t r) t rs := rfl

theorem runPollTicks_not_mem (t : Nat) (rs : List (FetchResult CheckData)) :
    ∀ s : ClientState, t ∉ s.activeTimers → runPollTicks s t rs = s := by
  induction rs with
  | nil => intro s _; rfl
  | cons r rs ih =>
      intro s h
      rw [runPollTicks_cons, pollTick_not_mem s t r h]
      exact ih s h

theorem pollTick_terminal_clears (s : ClientState) (t : Nat)
    (r : FetchResult CheckData) (hpi : s.pollInterval = some t)
    (hat : s.activeTimers = [t]) (h : isTerminal r = true) :
    (pollTick s t r).activeTimers = [] := by
  cases r with
  | fail => simp [isTerminal] at h
  | ok d =>
      simp [isTerminal] at h
      have hmem : t ∈ s.activeTimers := by simp [hat]
      rcases h with h | h
      · simp [pollTick, hmem, pollTickBody, h, clearTimer, hpi, hat]
      · by_cases ha : d.status = "approved"
        · simp [pollTick, hmem, pollTickBody, ha, clearTimer, hpi, hat]
        · simp [pollTick, hmem, pollTickBody, ha, h, clearTimer, hpi, hat]

theorem runPollTicks_timer_iff (t : Nat) (rs : List (FetchResult CheckData)) :
    ∀ s : ClientState, s.pollInterval = some t → s.activeTimers = [t] →
    (t ∈ (runPollTicks s t rs).activeTimers ↔ ∀ r ∈ rs, isTerminal r = false) := by
  induction rs with
  | nil => intro s _ hat; simp [runPollTicks_nil, hat]
  | cons r rs ih =>
      intro s hpi hat
      rw [runPollTicks_cons]
      by_cases hterm : isTerminal r = true
      · have hstep : (pollTick s t r).activeTimers = [] :=
          pollTick_terminal_clears s t r hpi hat hterm
        rw [runPollTicks_not_mem t rs _ (by simp [hstep])]
        simp [hstep, hterm]
      · have hterm2 : isTerminal r = false := by
          simpa using hterm
        rw [pollTick_nonterminal s t r hterm2, ih s hpi hat]
        simp [hterm2]

theorem pollTick_modalStatus_not_approved (s : ClientState) (t : Nat)
    (r : FetchResult CheckData) (hr : isApproved r = false)
    (hms : s.modalStatus ≠ ModalStatus.approvedShown) :
    (pollTick s t r).modalStatus ≠ ModalStatus.approvedShown := by
  cases r with
  | fail =>
      unfold pollTick pollTickBody
      split
      · exact hms
      · exact hms
  | ok d =>
      simp [isApproved] at hr
      unfold pollTick
      split
      · unfold pollTickBody
        simp only [hr, if_false, if_neg hr]
        split
        · simp
        · exact hms
      · exact hms

theorem pollTick_timers_cases (s : ClientState) (t : Nat)
    (r : FetchResult CheckData) (hpi : s.pollInterval = some t)
    (hat : s.activeTimers = [t] ∨ s.activeTimers = []) :
    (pollTick s t r).activeTimers = [t] ∨ (pollTick s t r).activeTimers = [] := by
  rcases hat with hat | hat
  · by_cases hterm : isTerminal r = true
    · exact Or.inr (pollTick_terminal_clears s t r hpi hat hterm)
    · rw [pollTick_nonterminal s t r (by simpa using hterm)]
      exact Or.inl hat
  · rw [pollTick_not_mem s t r (by simp [hat])]
    exact Or.inr hat

theorem runPollTicks_approved_only (t : Nat) (rs : List (FetchResult CheckData)) :
    ∀ s : ClientState, s.pollInterval = some t →
    (s.activeTimers = [t] ∨ s.activeTimers = []) →
    s.modalStatus ≠ ModalStatus.approvedShown →
    (∀ r ∈ rs, isApproved r = false) →
    (runPollTicks s t rs).modalStatus ≠ ModalStatus.approvedShown := by
  induction rs with
  | nil => intro s _ _ hms _; exact hms
  | cons r rs ih =>
      intro s hpi hat hms hun
      rw [runPollTicks_cons]
      refine ih (pollTick s t r) ?_ ?_ ?_ ?_
      · rw [pollTick_pollInterval]; exact hpi
      · exact pollTick_timers_cases s t r hpi hat
      · exact pollTick_modalStatus_not_approved s t r (hun r (by simp)) hms
      · intro r2 h2
        exact hun r2 (List.mem_cons_of_mem _ h2)

/-- C2: starting from a freshly started polling loop (interval `t` stored
and active, modal waiting), for every sequence of tick outcomes: the modal
reaches the Approved pane only if some tick observed status `approved`
(never spontaneously), and the interval is still active after the whole
sequence exactly when no tick observed `approved` or `rejected` — i.e. the
loop is cancelled strictly at the first terminal observation, and every
other status (or failed fetch) leaves it running, with no timeout. -/
theorem pollLoop_terminal (s : ClientState) (t : Nat)
    (rs : List (FetchResult CheckData))
    (hpi : s.pollInterval = some t) (hat : s.activeTimers = [t])
    (hms : s.modalStatus = ModalStatus.waiting) :
    ((∀ r ∈ rs, isApproved r = false) →
      (runPollTicks s t rs).modalStatus ≠ ModalStatus.approvedShown) ∧
    (t ∈ (runPollTicks s t rs).activeTimers ↔ ∀ r ∈ rs, isTerminal r = false) := by
  constructor
  · intro hun
    refine runPollTicks_approved_only t rs s hpi (Or.inl hat) ?_ hun
    rw [hms]
    simp
  · exact runPollTicks_timer_iff t rs s hpi hat

/-- Witness for `pollLoop_terminal`: a pending initiation from a fresh page
followed by a still-pending tick and an approving tick. -/
theorem pollLoop_terminal_witness :
    (demoStart.pollInterval = some 0 ∧ demoStart.activeTimers = [0] ∧
      demoStart.modalStatus = ModalStatus.waiting) ∧
    (((∀ r ∈ demoTicks, isApproved r = false) →
        (runPollTicks demoStart 0 demoTicks).modalStatus ≠
          ModalStatus.approvedShown) ∧
      (0 ∈ (runPollTicks demoStart 0 demoTicks).activeTimers ↔
        ∀ r ∈ demoTicks, isTerminal r = false)) :=
  ⟨⟨rfl, rfl, rfl⟩, pollLoop_terminal demoStart 0 demoTicks rfl rfl rfl⟩

theorem clearTimer_length_le (l : List Nat) (o : Option Nat) :
    (clearTimer l o).length ≤ l.length := by
  cases o with
  | none => exact Nat.le_refl _
  | some t => exact (List.erase_sublist t l).length_le

theorem pollTick_timers_le (s : ClientState) (t : Nat) (r : FetchResult CheckData) :
    (pollTick s t r).activeTimers.length ≤ s.activeTimers.length := by
  unfold pollTick pollTickBody
  split
  · split
    · exact Nat.le_refl _
    · split
      · exact clearTimer_length_le _ _
      · split
        · exact clearTimer_length_le _ _
        · exact Nat.le_refl _
  · exact Nat.le_refl _

theorem step_timer_bound (s : ClientState) (e : Event)
    (hlen : s.activeTimers.length ≤ 1) (hsafe : safeCond s e = true) :
    (step s e).activeTimers.length ≤ 1 := by
  cases e with
  | initiate r =>
      cases r with
      | httpError =>
          show (initiateDownload s InitResponse.httpError).activeTimers.length ≤ 1
          have h : (initiateDownload s InitResponse.httpError).activeTimers =
              clearTimer s.activeTimers s.pollInterval := rfl
          rw [h]
          exact Nat.le_trans (clearTimer_length_le _ _) hlen
      | ok st link rid =>
          show (initiateDownload s (InitResponse.ok st link rid)).activeTimers.length ≤ 1
          by_cases ha : st = "approved"
          · simp only [initiateDownload, ha, if_pos]
            exact Nat.le_trans (clearTimer_length_le _ _) hlen
          · by_cases hp : st = "pending"
            · have hempty : s.activeTimers.isEmpty = true := by
                simpa [safeCond, hp, ha] using hsafe
              have hnil : s.activeTimers = [] := by
                simpa [List.isEmpty_iff] using hempty
              simp [initiateDownload, ha, hp, pollRequest, hnil]
            · simp [initiateDownload, ha, hp]
              exact hlen
  | pollStart rid =>
      have hempty : s.activeTimers.isEmpty = true := by
        simpa [safeCond] using hsafe
      have hnil : s.activeTimers = [] := by
        simpa [List.isEmpty_iff] using hempty
      show (pollRequest s rid).activeTimers.length ≤ 1
      simp [pollRequest, hnil]
  | requestTick t r =>
      exact Nat.le_trans (pollTick_timers_le s t r) hlen
  | close =>
      show (closeModal s).activeTimers.length ≤ 1
      exact Nat.le_trans (clearTimer_length_le _ _) hlen
  | cancel =>
      show (closeModal s).activeTimers.length ≤ 1
      exact Nat.le_trans (clearTimer_length_le _ _) hlen
  | statusTick r =>
      cases r with
      | fail => exact hlen
      | ok d =>
          show (checkStatus s d).activeTimers.length ≤ 1
          rw [checkStatus_activeTimers]
          exact hlen

theorem run_cons_eq (s : ClientState) (e : Event) (es : List Event) :
    run s (e :: es) = run (step s e) es := rfl

theorem run_timer_bound (es : List Event) :
    ∀ s : ClientState, s.activeTimers.length ≤ 1 → startsSafe s es = true →
    (run s es).activeTimers.length ≤ 1 := by
  induction es with
  | nil => intro s h _; exact h
  | cons e es ih =>
      intro s h hsafe
      rw [startsSafe, Bool.and_eq_true] at hsafe
      rw [run_cons_eq]
      exact ih (step s e) (step_timer_bound s e h hsafe.1) hsafe.2

/-- C1 counterexample: the claim "starting a new polling loop while another
is active first stops the previous one, so at most one timer is ever
active" is false for the code.  Two back-to-back initiations that both
receive a `pending` response leave two live intervals: `pollRequest`
overwrites `pollInterval` with a fresh `setInterval` handle without
clearing the previous one. -/
theorem singleTimer_counterexample :
    ¬ ((run initState
        [Event.initiate (InitResponse.ok "pending" "a" "req00001"),
         Event.initiate (InitResponse.ok "pending" "b" "req00002")]).activeTimers.length ≤ 1) := by
  decide

/-- C1 (amended): at most one polling interval is active across any
sequence of `initiateDownload` / `pollRequest` / `closeModal` /
`cancelDownload` calls and poll ticks, provided every polling start (a
`pending` initiation or a direct `pollRequest` call) happens while no
interval is active — e.g. whenever each initiation is preceded by
`closeModal` or `cancelDownload`.  The code itself never stops a previous
loop when starting a new one, so a start while a loop is active leaks the
previous interval. -/
theorem singleTimer_of_safeStarts (es : List Event)
    (h : startsSafe initState es = true) :
    (run initState es).activeTimers.length ≤ 1 :=
  run_timer_bound es initState (by decide) h

/-- Witness for `singleTimer_of_safeStarts`: an initiation, an approving
tick (which clears the interval), then a second initiation and a cancel. -/
theorem singleTimer_of_safeStarts_witness :
    startsSafe initState demoEvents = true ∧
    (run initState demoEvents).activeTimers.length ≤ 1 :=
  ⟨by decide, singleTimer_of_safeStarts demoEvents (by decide)⟩

/-- C9: the view-preference store round-trips.  `toggleView` persists the
new mode to `localStorage` synchronously; `loadViewPreference` on a fresh
page restores exactly the saved mode; and with no saved value the page
stays in the default grid mode. -/
theorem viewPreference_roundTrip (s : ClientState) (forceList : Bool) :
    (toggleView forceList s).viewStorage =
      some (if (toggleView forceList s).isGridView then "grid" else "list") ∧
    (loadViewPreference (freshPage (toggleView forceList s).viewStorage)).isGridView =
      (toggleView forceList s).isGridView ∧
    (loadViewPreference (freshPage none)).isGridView = true := by
  cases forceList <;> cases hg : s.isGridView <;>
    simp [toggleView, loadViewPreference, freshPage, hg]

end SecureShare
